import Mathlib

/-
Verification of the object-store core of libwyag.py: a shallow embedding of
the hashing/framing layer, the tree codec, the KVLM codec, the object store
write path, and the checkout precondition, together with theorems settling
the specification claims about them.

Byte strings are modelled as List Nat (one Nat per byte).  Python string and
bytes primitives (find, slicing, indexing, int(), replace) are embedded with
their Python semantics, including negative-index handling and the -1 result
of find.  Fallible or raising Python code is embedded in Except String.
-/

abbrev Bytes := List Nat

/-- Conversion helper for writing concrete byte-string inputs. -/
def str2bytes (s : String) : Bytes := s.toList.map Char.toNat

/-- Python bytes.find(b, start): index of the first occurrence of byte b at
position start or later, or -1 when there is none.  A negative start counts
from the end and is clamped at 0, as in Python. -/
def bfind (raw : Bytes) (b : Nat) (start : Int) : Int :=
  let s : Nat := if start < 0 then (max 0 ((raw.length : Int) + start)).toNat else start.toNat
  match (raw.drop s).findIdx? (fun x => x == b) with
  | some j => ((s + j : Nat) : Int)
  | none => -1

/-- Python slice-index normalization: a negative index counts from the end
and both directions clamp into [0, len]. -/
def pyIdx (len : Nat) (i : Int) : Nat :=
  if i < 0 then ((len : Int) + i).toNat else min i.toNat len

/-- Python slicing raw[a:b]. -/
def pySlice (raw : Bytes) (a b : Int) : Bytes :=
  (raw.take (pyIdx raw.length b)).drop (pyIdx raw.length a)

/-- Python single-byte indexing raw[i]: negative i counts from the end, an
index out of range raises IndexError. -/
def pyGet (raw : Bytes) (i : Int) : Except String Nat :=
  let j : Int := if i < 0 then (raw.length : Int) + i else i
  if 0 ≤ j ∧ j < (raw.length : Int) then .ok (raw.getD j.toNat 0) else .error "IndexError"

/-- Python format(n, "040x"): lowercase hexadecimal, left-padded with zeros
to width 40 (longer values are printed in full, never truncated). -/
def format040x (n : Nat) : String :=
  let ds := Nat.toDigits 16 n
  ⟨List.replicate (40 - ds.length) '0' ++ ds⟩

/-- One hexadecimal digit of int(s, 16). -/
def hexVal (c : Char) : Option Nat :=
  if 48 ≤ c.toNat ∧ c.toNat ≤ 57 then some (c.toNat - 48)
  else if 97 ≤ c.toNat ∧ c.toNat ≤ 102 then some (c.toNat - 87)
  else if 65 ≤ c.toNat ∧ c.toNat ≤ 70 then some (c.toNat - 55)
  else none

/-- Python int(s, 16) on the plain-hex-digit strings the source feeds it (the
40-character ContentID renderings); an empty string or a non-hex character
raises ValueError. -/
def int16 (s : String) : Except String Nat :=
  match s.toList.mapM hexVal with
  | some ds => if s.isEmpty then .error "ValueError" else .ok (ds.foldl (fun a d => a * 16 + d) 0)
  | none => .error "ValueError"

/-- Python int.from_bytes(bs, "big"). -/
def fromBytesBe (bs : Bytes) : Nat := bs.foldl (fun a b => a * 256 + b % 256) 0

/-- Python n.to_bytes(20, "big"): 20 big-endian bytes, OverflowError when n
does not fit. -/
def toBytes20 (n : Nat) : Except String Bytes :=
  if n < 256 ^ 20 then .ok ((List.range 20).map (fun i => n / 256 ^ (19 - i) % 256))
  else .error "OverflowError"

/-- Python int() on an ASCII decimal string, allowing the surrounding spaces
Python strips (object_read passes raw[x:y], which starts at the space byte). -/
def pyIntDec (bs : Bytes) : Except String Nat :=
  let t := ((bs.dropWhile (fun c => c == 32)).reverse.dropWhile (fun c => c == 32)).reverse
  if t ≠ [] ∧ t.all (fun c => 48 ≤ c ∧ c ≤ 57) then
    .ok (t.foldl (fun a c => a * 10 + (c - 48)) 0)
  else .error "ValueError"

/-- Python replace(b"\n ", b"\n"): drop the space after each newline,
scanning left to right (kvlm_parse continuation-line joining). -/
def replaceNlSpace : Bytes → Bytes
  | [] => []
  | 10 :: 32 :: rest => 10 :: replaceNlSpace rest
  | b :: rest => b :: replaceNlSpace rest

/-- Python replace(b"\n", b"\n "): insert a space after each newline
(kvlm_serialize continuation-line re-expansion). -/
def replaceNl : Bytes → Bytes
  | [] => []
  | 10 :: rest => 10 :: 32 :: replaceNl rest
  | b :: rest => b :: replaceNl rest

/-- One tree entry as held in memory: class GitTreeLeaf(mode, path, sha).
The source decodes path from UTF-8 to str and compares sort keys as str;
we keep the raw bytes, which preserves code-point order (UTF-8 is
order-preserving), and sha as the 40-character hex string. -/
structure GitTreeLeaf where
  mode : Bytes
  path : Bytes
  sha : String
deriving DecidableEq, Repr

/-- In-memory tree object: class GitTree, field items. -/
structure GitTree where
  items : List GitTreeLeaf
deriving DecidableEq, Repr

/-- Embedding of tree_parse_one(raw, start): find the space ending the mode,
assert the mode is 5 or 6 bytes, left-pad a 5-byte mode with b" " (a space
byte, exactly as the source writes it), find the NUL ending the path, then
render the next 20 bytes as a 40-digit hex sha.  Returns the new position
and the leaf. -/
def tree_parse_one (raw : Bytes) (start : Nat) : Except String (Nat × GitTreeLeaf) :=
  let x := bfind raw 32 start
  if x - (start : Int) = 5 ∨ x - (start : Int) = 6 then
    let mode := pySlice raw start x
    let mode := if mode.length = 5 then 32 :: mode else mode
    let y := bfind raw 0 x
    let path := pySlice raw (x + 1) y
    let sha := format040x (fromBytesBe (pySlice raw (y + 1) (y + 21)))
    .ok ((y + 21).toNat, ⟨mode, path, sha⟩)
  else .error "AssertionError"

/-- Loop body of tree_parse: while pos < max, parse one entry and append.
Fuel makes the loop total; the source can loop forever on NUL-free input,
which the fuel-exhausted error models. -/
def tree_parse_go (raw : Bytes) : Nat → Nat → List GitTreeLeaf → Except String (List GitTreeLeaf)
  | 0, _, _ => .error "NonTermination"
  | f + 1, pos, acc =>
    if pos < raw.length then
      match tree_parse_one raw pos with
      | .error e => .error e
      | .ok (pos2, leaf) => tree_parse_go raw f pos2 (acc ++ [leaf])
    else .ok acc

/-- Embedding of tree_parse(raw). -/
def tree_parse (raw : Bytes) : Except String (List GitTreeLeaf) :=
  tree_parse_go raw (raw.length + 1) 0 []

/-- Embedding of tree_leaf_sort_key(leaf): the path when the mode starts
with b"10", otherwise the path with "/" appended. -/
def tree_leaf_sort_key (leaf : GitTreeLeaf) : Bytes :=
  if leaf.mode.take 2 = [49, 48] then leaf.path else leaf.path ++ [47]

/-- Lexicographic less-or-equal on byte strings: the order Python uses to
compare the str sort keys (code-point order equals byte order here). -/
def bytesLe : Bytes → Bytes → Bool
  | [], _ => true
  | _ :: _, [] => false
  | a :: xs, b :: ys => if a < b then true else if b < a then false else bytesLe xs ys

/-- Key comparison used by obj.items.sort(key=tree_leaf_sort_key). -/
def leafLe (a b : GitTreeLeaf) : Bool := bytesLe (tree_leaf_sort_key a) (tree_leaf_sort_key b)

/-- Stable insertion step for pySort. -/
def pyInsert (le : α → α → Bool) (x : α) : List α → List α
  | [] => [x]
  | y :: ys => if le x y then x :: y :: ys else y :: pyInsert le x ys

/-- Model of Python list.sort(key=...): Python uses a stable comparison
sort; a stable insertion sort computes the same reordering for any total
transitive comparison, and reduces structurally. -/
def pySort (le : α → α → Bool) : List α → List α
  | [] => []
  | x :: xs => pyInsert le x (pySort le xs)

/-- Byte output of one entry inside the tree_serialize loop:
ret += i.mode; ret += b" "; ret += i.path.encode; ret += b"\00x";
sha = int(i.sha, 16); ret += sha.to_bytes(20, "big").
Note b"\00x" in the source is the two bytes 0x00 0x78: a NUL followed by a
literal letter x. -/
def tree_entry_bytes (leaf : GitTreeLeaf) : Except String Bytes := do
  let sha ← int16 leaf.sha
  let hash ← toBytes20 sha
  .ok (leaf.mode ++ [32] ++ leaf.path ++ [0, 120] ++ hash)

/-- Concatenation of the per-entry bytes over the (already sorted) items. -/
def tree_serialize_items : List GitTreeLeaf → Except String Bytes
  | [] => .ok []
  | l :: rest => do
    let b ← tree_entry_bytes l
    let r ← tree_serialize_items rest
    .ok (b ++ r)

/-- Embedding of tree_serialize(obj): obj.items.sort(key=tree_leaf_sort_key)
mutates the object in place, then the loop emits the entries.  The result
pairs the emitted bytes with the mutated object. -/
def tree_serialize (obj : GitTree) : Except String Bytes × GitTree :=
  let sorted := pySort leafLe obj.items
  (tree_serialize_items sorted, ⟨sorted⟩)

/-- Value of one KVLM dictionary slot: a single bytes value, turned into a
list when the same key is seen again (exactly the source logic). -/
inductive KvlmVal where
  | single (v : Bytes)
  | many (vs : List Bytes)
deriving DecidableEq, Repr

/-- Ordered dictionary of kvlm_parse: key None (the message) is modelled as
the none key; insertion order is the list order, and assignment to an
existing key keeps its position, as Python dictionaries do. -/
abbrev Kvlm := List (Option Bytes × KvlmVal)

/-- Python dct[k] lookup (as an Option). -/
def kvlmLookup (dct : Kvlm) (k : Option Bytes) : Option KvlmVal :=
  match dct.find? (fun p => p.1 == k) with
  | some p => some p.2
  | none => none

/-- Replacement of the value at an existing key, keeping its position. -/
def kvlmReplace (dct : Kvlm) (k : Option Bytes) (v : KvlmVal) : Kvlm :=
  dct.map (fun p => if p.1 == k then (k, v) else p)

/-- Python dct[k] = v: replace in place when the key exists, else append. -/
def kvlmAssign (dct : Kvlm) (k : Option Bytes) (v : KvlmVal) : Kvlm :=
  if (dct.find? (fun p => p.1 == k)).isSome then kvlmReplace dct k v else dct ++ [(k, v)]

/-- Multi-value update from kvlm_parse: if the key is present as a list,
append; if present as a single value, make a two-element list; otherwise
store the single value. -/
def kvlmAddValue (dct : Kvlm) (k : Option Bytes) (v : Bytes) : Kvlm :=
  match kvlmLookup dct k with
  | some (.many vs) => kvlmReplace dct k (.many (vs ++ [v]))
  | some (.single u) => kvlmReplace dct k (.many [u, v])
  | none => dct ++ [(k, .single v)]

/-- Value-end scan of kvlm_parse:
while True: end = raw.find(b"\n", end + 1); if raw[end + 1] != ord(" "): break.
raw[end + 1] can raise IndexError (end + 1 == len), and the loop can run
forever when find keeps returning -1 and raw[0] is a space; fuel models
that divergence. -/
def kvlm_value_end (raw : Bytes) : Nat → Int → Except String Int
  | 0, _ => .error "NonTermination"
  | f + 1, e => do
    let e2 := bfind raw 10 (e + 1)
    let c ← pyGet raw (e2 + 1)
    if c ≠ 32 then .ok e2 else kvlm_value_end raw f e2

/-- Recursive body of kvlm_parse(raw, start, dct).  Base case: when the next
space is absent or comes after the next newline, assert that the newline is
exactly at start (a blank line), store the remainder as the None-keyed
message and return; a failing assert raises AssertionError.  Recursive
case: key is raw[start:space], the value runs to the first newline not
followed by a space, continuation lines lose their leading space, and the
key is added with the multi-value rule.  Fuel stands in for the Python
recursion limit (the scan position does not always advance). -/
def kvlm_parse_go (raw : Bytes) : Nat → Nat → Kvlm → Except String Kvlm
  | 0, _, _ => .error "RecursionError"
  | f + 1, start, dct =>
    let space := bfind raw 32 start
    let nl := bfind raw 10 start
    if space < 0 ∨ nl < space then
      if nl = (start : Int) then .ok (kvlmAssign dct none (.single (raw.drop (start + 1))))
      else .error "AssertionError"
    else do
      let key := pySlice raw (start : Int) space
      let e ← kvlm_value_end raw (raw.length + 1) (start : Int)
      let value := replaceNlSpace (pySlice raw (space + 1) e)
      kvlm_parse_go raw f (e + 1).toNat (kvlmAddValue dct (some key) value)

/-- Embedding of kvlm_parse(raw) from the top: start 0, fresh dictionary. -/
def kvlm_parse (raw : Bytes) : Except String Kvlm :=
  kvlm_parse_go raw (raw.length + 1) 0 []

/-- Header lines of kvlm_serialize: for each non-None key in dictionary
order, one line key SPACE value NEWLINE per value, re-expanding the
continuation convention inside each value. -/
def kvlm_header : Kvlm → Bytes
  | [] => []
  | (none, _) :: rest => kvlm_header rest
  | (some k, .single v) :: rest => k ++ [32] ++ replaceNl v ++ [10] ++ kvlm_header rest
  | (some k, .many vs) :: rest =>
      (vs.map (fun v => k ++ [32] ++ replaceNl v ++ [10])).flatten ++ kvlm_header rest

/-- Embedding of kvlm_serialize(kvlm): the header lines, then
ret += b"\n" + kvlm[None] + b"\n" — note the trailing extra newline the
source appends after the message.  A missing None key raises KeyError; a
list-valued None key would make the bytes concatenation raise TypeError. -/
def kvlm_serialize (kvlm : Kvlm) : Except String Bytes :=
  match kvlmLookup kvlm none with
  | some (.single msg) => .ok (kvlm_header kvlm ++ [10] ++ msg ++ [10])
  | some (.many _) => .error "TypeError"
  | none => .error "KeyError"

/-- Tagged union of the four object kinds.  GitTag carries no payload
because both its serialize and deserialize delegate to the abstract
GitObject base, which raises NotImplementedError before any field exists. -/
inductive GitObject where
  | blob (blobdata : Bytes)
  | commit (kvlm : Kvlm)
  | tree (t : GitTree)
  | tag
deriving DecidableEq, Repr

/-- Object type tag: the fmt class attribute. -/
def GitObject.fmt : GitObject → Bytes
  | .blob _ => str2bytes "blob"
  | .commit _ => str2bytes "commit"
  | .tree _ => str2bytes "tree"
  | .tag => str2bytes "tag"

/-- Dispatch of object.serialize(): a blob returns its data unchanged, a
commit serializes its kvlm, a tree serializes (and in-place sorts) its
items, and a tag reaches GitObject.serialize, which raises
NotImplementedError. -/
def GitObject.serialize : GitObject → Except String Bytes
  | .blob d => .ok d
  | .commit m => kvlm_serialize m
  | .tree t => (tree_serialize t).1
  | .tag => .error "NotImplementedError"

/-- Constructor path GitCommit(data): deserialize via kvlm_parse. -/
def gitCommit_decode (data : Bytes) : Except String GitObject :=
  match kvlm_parse data with
  | .ok m => .ok (.commit m)
  | .error e => .error e

/-- Constructor path GitTag(data): GitTag.deserialize calls
super().deserialize(data), and GitObject.deserialize raises
NotImplementedError, so no tag can ever be constructed from data. -/
def gitTag_decode (_data : Bytes) : Except String GitObject :=
  .error "NotImplementedError"

/-- Embedding of object_write(object): after serializing, the source builds
result = object.fmt + b" " + str(len(data)).encode + b"\x00" + data.
The call parentheses after .encode are missing, so the third summand is the
bound method object itself, and adding it to bytes raises TypeError before
any hash is computed or any file is touched. -/
def object_write (o : GitObject) : Except String String := do
  let _data ← o.serialize
  .error "TypeError"

/-- Model of the on-disk object directory for the write path: path to
compressed frame bytes. -/
abbrev Store := List (String × Bytes)

/-- Embedding of object_write(object, repo): the frame construction raises
TypeError exactly as in object_write, so the repo branch that derives the
path from the sha and writes the compressed frame is unreachable and the
store is never read or changed. -/
def object_write_repo (o : GitObject) (_store : Store) : Except String (String × Store) := do
  let _data ← o.serialize
  .error "TypeError"

/-- Frame described by the specification and by the claim:
type_tag + " " + decimal(len(payload)) + NUL + payload.  Stated from the
spec wording for comparison with what the source actually does. -/
def frame_spec (tag payload : Bytes) : Bytes :=
  tag ++ [32] ++ (Nat.toDigits 10 payload.length).map Char.toNat ++ [0] ++ payload

/-- Frame validation of object_read (lines 521-529 of the source): split at
the first space and the following NUL, parse the decimal size and require it
to equal the remaining byte count, returning the tag and payload. -/
def object_read_frame (raw : Bytes) : Except String (Bytes × Bytes) := do
  let x := bfind raw 32 0
  let fmt := pySlice raw 0 x
  let y := bfind raw 0 x
  let size ← pyIntDec (pySlice raw x y)
  if (size : Int) ≠ (raw.length : Int) - y - 1 then .error "Malformed object: bad length"
  else .ok (fmt, pySlice raw (y + 1) (raw.length))

/-- State of the checkout target path as observed by cmd_checkout through
os.path.exists, os.path.isdir and os.listdir. -/
inductive PathState where
  | absent
  | nondir
  | dir (listing : List String)
deriving DecidableEq, Repr

/-- Target validation of cmd_checkout (lines 648-654): a missing target is
created with os.makedirs; an existing non-directory raises Not a directory;
then the source tests `if not os.listdir(args.path)` and raises Not empty —
so an existing EMPTY directory is rejected and an existing non-empty
directory falls through and is checked out into. -/
def checkout_target_check (st : PathState) : Except String Unit :=
  match st with
  | .absent => .ok ()
  | .nondir => .error "Not a directory"
  | .dir listing => if listing = [] then .error "Not empty" else .ok ()

/-- Embedding of tree_checkout(repo, tree, path): for each item the source
reads the referenced object and then computes
dest = os.path.join(repo, item.sha) — joining the GitRepository OBJECT (not
a path string) with the HASH (not the entry name), which raises TypeError
for every entry; neither path nor item.path ever enters the computation, so
no file or directory named after an entry can be produced. -/
def tree_checkout (readObj : String → Except String GitObject) :
    List GitTreeLeaf → Except String Unit
  | [] => .ok ()
  | item :: _rest => do
    let _obj ← readObj item.sha
    .error "TypeError"

deriving instance DecidableEq for Except

/-- All-zero ContentID used as a concrete hash in test inputs. -/
def shaZ : String := "0000000000000000000000000000000000000000"

/-- Model object store for the checkout scenario: the referenced object is a
blob with content x. -/
def readObj_example (sha : String) : Except String GitObject :=
  if sha = shaZ then .ok (.blob (str2bytes "x")) else .error "None"

/-- Sort key as the claim words it: the name for every entry whose mode does
NOT start with "04", the name plus "/" for directory entries. -/
def tree_leaf_sort_key_claim (leaf : GitTreeLeaf) : Bytes :=
  if leaf.mode.take 2 = [48, 52] then leaf.path ++ [47] else leaf.path

/-- Tree serialization as the claim predicts it: identical emission, but
sorted with the claim sort key. -/
def tree_serialize_claim (obj : GitTree) : Except String Bytes × GitTree :=
  let sorted := pySort (fun a b => bytesLe (tree_leaf_sort_key_claim a) (tree_leaf_sort_key_claim b)) obj.items
  (tree_serialize_items sorted, ⟨sorted⟩)

/-- Per-entry layout as the claim words it: six ASCII octal digits (a
5-byte mode left-padded with the digit zero), a space, the name bytes, one
NUL, then the 20-byte big-endian hash — no other byte. -/
def tree_entry_claim (leaf : GitTreeLeaf) : Except String Bytes := do
  let sha ← int16 leaf.sha
  let hash ← toBytes20 sha
  let mode6 := if leaf.mode.length = 5 then 48 :: leaf.mode else leaf.mode
  .ok (mode6 ++ [32] ++ leaf.path ++ [0] ++ hash)

/-- Concrete leaves for the canonical-order examples. -/
def leafFileA : GitTreeLeaf := ⟨str2bytes "100644", str2bytes "a", shaZ⟩

/-- Directory entry named a. -/
def leafDirA : GitTreeLeaf := ⟨str2bytes "040000", str2bytes "a", shaZ⟩

/-- File entry named b. -/
def leafFileB : GitTreeLeaf := ⟨str2bytes "100644", str2bytes "b", shaZ⟩

/-- Symlink entry named a: mode starts with 12, so the source appends "/"
to its key while the claim key is the bare name. -/
def leafSymA : GitTreeLeaf := ⟨str2bytes "120000", str2bytes "a", shaZ⟩

/-- File entry named a-: the byte 0x2D of "-" sits between nothing and the
0x2F of "/", separating the two key functions. -/
def leafFileADash : GitTreeLeaf := ⟨str2bytes "100644", str2bytes "a-", shaZ⟩

theorem bytesLe_total (xs : Bytes) : ∀ ys, bytesLe xs ys = true ∨ bytesLe ys xs = true := by
  induction xs with
  | nil => intro ys; exact Or.inl rfl
  | cons a xs ih =>
    intro ys
    cases ys with
    | nil => exact Or.inr rfl
    | cons b ys =>
      by_cases hab : a < b
      · left; simp [bytesLe, hab]
      · by_cases hba : b < a
        · right; simp [bytesLe, hba]
        · rcases ih ys with h | h
          · left; simp [bytesLe, hab, hba, h]
          · right; simp [bytesLe, hab, hba, h]

theorem bytesLe_trans : ∀ xs ys zs : Bytes,
    bytesLe xs ys = true → bytesLe ys zs = true → bytesLe xs zs = true := by
  intro xs
  induction xs with
  | nil => intro ys zs _ _; rfl
  | cons a xs ih =>
    intro ys zs h1 h2
    cases ys with
    | nil => simp [bytesLe] at h1
    | cons b ys =>
      cases zs with
      | nil => simp [bytesLe] at h2
      | cons c zs =>
        simp only [bytesLe] at h1 h2 ⊢
        by_cases hab : a < b
        · by_cases hbc : b < c
          · have hac : a < c := Nat.lt_trans hab hbc
            simp [hac]
          · by_cases hcb : c < b
            · simp [hbc, hcb] at h2
            · have hac : a < c := by omega
              simp [hac]
        · by_cases hba : b < a
          · simp [hab, hba] at h1
          · have hec : a = b := by omega
            subst hec
            simp [Nat.lt_irrefl] at h1
            by_cases hac : a < c
            · simp [hac]
            · by_cases hca : c < a
              · simp [hac, hca] at h2
              · simp only [hac, hca, if_neg, ite_false]
                simp [hac, hca] at h2
                exact ih ys zs h1 h2

theorem leafLe_total (a b : GitTreeLeaf) : leafLe a b = true ∨ leafLe b a = true :=
  bytesLe_total _ _

theorem leafLe_trans (a b c : GitTreeLeaf)
    (h1 : leafLe a b = true) (h2 : leafLe b c = true) : leafLe a c = true :=
  bytesLe_trans _ _ _ h1 h2

theorem pyInsert_perm (le : α → α → Bool) (x : α) :
    ∀ l : List α, (pyInsert le x l).Perm (x :: l) := by
  intro l
  induction l with
  | nil => exact List.Perm.refl _
  | cons y ys ih =>
    simp only [pyInsert]
    by_cases h : le x y
    · simp [h]
    · simp only [h, Bool.false_eq_true, if_false]
      exact (ih.cons y).trans (List.Perm.swap x y ys)

theorem pySort_perm (le : α → α → Bool) : ∀ l : List α, (pySort le l).Perm l := by
  intro l
  induction l with
  | nil => exact List.Perm.refl _
  | cons x xs ih =>
    simp only [pySort]
    exact (pyInsert_perm le x (pySort le xs)).trans (ih.cons x)

theorem pyInsert_pairwise (le : α → α → Bool)
    (total : ∀ a b, le a b = true ∨ le b a = true)
    (htrans : ∀ a b c, le a b = true → le b c = true → le a c = true)
    (x : α) : ∀ l : List α, l.Pairwise (fun a b => le a b = true) →
    (pyInsert le x l).Pairwise (fun a b => le a b = true) := by
  intro l
  induction l with
  | nil => intro _; simp [pyInsert]
  | cons y ys ih =>
    intro h
    rcases List.pairwise_cons.mp h with ⟨hy, hys⟩
    simp only [pyInsert]
    by_cases hxy : le x y
    · simp only [hxy, if_true]
      refine List.pairwise_cons.mpr ⟨?_, h⟩
      intro z hz
      rcases List.mem_cons.mp hz with rfl | hz2
      · exact hxy
      · exact htrans x y z hxy (hy z hz2)
    · have hyx : le y x = true := (total x y).resolve_left hxy
      simp only [hxy, Bool.false_eq_true, if_false]
      refine List.pairwise_cons.mpr ⟨?_, ih hys⟩
      intro z hz
      rcases List.mem_cons.mp ((pyInsert_perm le x ys).mem_iff.mp hz) with rfl | hz2
      · exact hyx
      · exact hy z hz2

theorem pySort_pairwise (le : α → α → Bool)
    (total : ∀ a b, le a b = true ∨ le b a = true)
    (htrans : ∀ a b c, le a b = true → le b c = true → le a c = true) :
    ∀ l : List α, (pySort le l).Pairwise (fun a b => le a b = true) := by
  intro l
  induction l with
  | nil => simp [pySort]
  | cons x xs ih =>
    simp only [pySort]
    exact pyInsert_pairwise le total htrans x (pySort le xs) ih

/-- C1: the claim states that object_write frames the serialized payload as
type_tag + " " + decimal(len(payload)) + NUL + payload and returns the
160-bit digest of those bytes in hex.  In the source the call parentheses
after str(len(data)).encode are missing, so the frame expression adds a
bound method to bytes and raises TypeError for every object: no frame and
no ContentID is ever produced.  The second conjunct shows the reader side
(object_read) accepts exactly the claimed frame, so the claim matches the
intent of the code that object_write itself breaks. -/
theorem C1_object_write_frame_bug :
    object_write (.blob (str2bytes "hi")) = .error "TypeError" ∧
    object_read_frame (frame_spec (str2bytes "blob") (str2bytes "hi")) =
      .ok (str2bytes "blob", str2bytes "hi") := by
  exact ⟨rfl, by decide⟩

/-- C2: the claim states decode(encode(o)) == o for Blob, Tree, Commit and
Tag.  For the commit whose kvlm is just the message "msg\n", kvlm_serialize
emits "\nmsg\n\n" (an extra trailing newline) and parsing that back yields
the message "msg\n\n", a different object; and GitTag delegates both
serialize and deserialize to the abstract GitObject base, which raises
NotImplementedError, so no Tag value can round-trip at all. -/
theorem C2_roundtrip_bug :
    GitObject.serialize (.commit [(none, .single (str2bytes "msg\n"))]) =
      .ok (str2bytes "\nmsg\n\n") ∧
    gitCommit_decode (str2bytes "\nmsg\n\n") =
      .ok (.commit [(none, .single (str2bytes "msg\n\n"))]) ∧
    GitObject.commit [(none, .single (str2bytes "msg\n\n"))] ≠
      GitObject.commit [(none, .single (str2bytes "msg\n"))] ∧
    GitObject.serialize .tag = .error "NotImplementedError" ∧
    gitTag_decode (str2bytes "") = .error "NotImplementedError" := by
  exact ⟨by decide, by decide, by decide, rfl, rfl⟩

/-- C3: the claim states checkout succeeds on a missing target (created) or
an existing empty directory, and fails on everything else.  The source
tests `if not os.listdir(args.path)`, inverting the emptiness check: an
existing EMPTY directory raises the Not empty error while an existing
NON-EMPTY directory passes validation; missing targets and non-directory
targets behave as claimed. -/
theorem C3_checkout_target_inverted :
    checkout_target_check .absent = .ok () ∧
    checkout_target_check .nondir = .error "Not a directory" ∧
    checkout_target_check (.dir []) = .error "Not empty" ∧
    checkout_target_check (.dir ["f.txt"]) = .ok () := by
  exact ⟨rfl, rfl, by decide, by decide⟩

/-- C4: the claim states checkout writes each entry under the target
directory at the entry name.  The source computes
dest = os.path.join(repo, item.sha) from the repository OBJECT and the
HASH: the entry name and the target path never enter the computation, and
joining a GitRepository raises TypeError, so for the claimed scenario (a
tree holding the blob entry a.txt) checkout fails for every entry and
creates nothing named a.txt. -/
theorem C4_tree_checkout_dest_bug :
    tree_checkout readObj_example [⟨str2bytes "100644", str2bytes "a.txt", shaZ⟩] =
      .error "TypeError" ∧
    tree_checkout readObj_example [] = .ok () := by
  exact ⟨by decide, rfl⟩

/-- C5 counterexample: the claim key (bare name for every mode not starting
"04") disagrees with the source key (bare name only for modes starting
"10") on a symlink entry.  With the symlink a (mode 120000) and the file a-
(mode 100644), the source emits a- before a (keys "a-" < "a/"), while the
claimed key would emit a before a- ("a" < "a-"), so both the item order and
the serialized bytes differ from the claimed ones. -/
theorem C5_sort_key_counterexample :
    (tree_serialize ⟨[leafSymA, leafFileADash]⟩).2.items = [leafFileADash, leafSymA] ∧
    (tree_serialize_claim ⟨[leafSymA, leafFileADash]⟩).2.items = [leafSymA, leafFileADash] ∧
    (tree_serialize ⟨[leafSymA, leafFileADash]⟩).1 ≠
      (tree_serialize_claim ⟨[leafSymA, leafFileADash]⟩).1 := by
  exact ⟨by decide, by decide, by decide⟩

/-- C5 amended: tree encoding sorts entries before emission regardless of
input order, using the key name for entries whose mode STARTS WITH "10" and
name + "/" for all other entries (directories included): the emitted order
is a permutation of the items sorted under that key, and the concrete
example {b file, a dir, a file} serializes a(file), a(dir), then b. -/
theorem C5_sort_key_amended :
    (∀ t : GitTree,
      ((tree_serialize t).2.items).Pairwise (fun a b => leafLe a b = true) ∧
      ((tree_serialize t).2.items).Perm t.items ∧
      (tree_serialize t).1 = tree_serialize_items ((tree_serialize t).2.items)) ∧
    (tree_serialize ⟨[leafFileB, leafDirA, leafFileA]⟩).2.items =
      [leafFileA, leafDirA, leafFileB] := by
  constructor
  · intro t
    refine ⟨?_, ?_, rfl⟩
    · exact pySort_pairwise leafLe leafLe_total leafLe_trans t.items
    · exact pySort_perm leafLe t.items
  · decide

/-- C6: the claim states the per-entry layout is mode (5-byte modes
zero-padded on read, 6 bytes on write), space, name, NUL, 20-byte hash.
The source instead pads a parsed 5-byte mode with a SPACE byte (b" " +
mode), and on write emits b"\00x" — a NUL followed by a spurious letter x
(0x78) — between the name and the hash, so the written entry has 0x78 where
the claim has the first hash byte. -/
theorem C6_tree_layout_bug :
    tree_parse_one (str2bytes "40000 a" ++ [0] ++ List.replicate 20 0) 0 =
      .ok (28, ⟨[32, 52, 48, 48, 48, 48], str2bytes "a", shaZ⟩) ∧
    ([32, 52, 48, 48, 48, 48] : Bytes) ≠ [48, 52, 48, 48, 48, 48] ∧
    tree_entry_bytes ⟨str2bytes "100644", str2bytes "a", shaZ⟩ =
      .ok (str2bytes "100644 a" ++ [0, 120] ++ List.replicate 20 0) ∧
    tree_entry_claim ⟨str2bytes "100644", str2bytes "a", shaZ⟩ =
      .ok (str2bytes "100644 a" ++ [0] ++ List.replicate 20 0) ∧
    (str2bytes "100644 a" ++ [0, 120] ++ List.replicate 20 0) ≠
      (str2bytes "100644 a" ++ [0] ++ List.replicate 20 0) := by
  exact ⟨by decide, by decide, by decide, by decide, by decide⟩

/-- C7: the claim states write is idempotent — same ContentID twice and no
second disk write.  Because the frame expression in object_write raises
TypeError before the hash is computed (missing call parentheses on
str(len(data)).encode), every call with any store state fails: no call
returns a ContentID and the store is never consulted or written, so the
claimed two-call behaviour never happens. -/
theorem C7_write_idempotence_bug :
    ∀ s : Store, object_write_repo (.blob (str2bytes "x")) s = .error "TypeError" := by
  intro s; rfl

/-- C8: parsing "parent abc\nparent def\n\nmsg\n" yields the parent key
mapped to the ordered values [abc, def] and the None-keyed message "msg\n",
and re-serializing that dictionary emits the two parent lines in that same
order (followed by the blank line, the message, and the extra newline the
serializer always appends). -/
theorem C8_kvlm_multivalue :
    kvlm_parse (str2bytes "parent abc\nparent def\n\nmsg\n") =
      .ok [(some (str2bytes "parent"), .many [str2bytes "abc", str2bytes "def"]),
           (none, .single (str2bytes "msg\n"))] ∧
    kvlm_serialize [(some (str2bytes "parent"), .many [str2bytes "abc", str2bytes "def"]),
           (none, .single (str2bytes "msg\n"))] =
      .ok (str2bytes "parent abc\nparent def\n\nmsg\n\n") := by
  exact ⟨by decide, by decide⟩

/-- C9 counterexample: the claim states serializing never mutates the
object and in particular leaves a Tree items sequence unchanged in contents
and order.  Serializing the tree [b, a] sorts the list in place: afterwards
the items are [a, b], a different order. -/
theorem C9_immutability_counterexample :
    (tree_serialize ⟨[leafFileB, leafFileA]⟩).2 ≠ ⟨[leafFileB, leafFileA]⟩ ∧
    (tree_serialize ⟨[leafFileB, leafFileA]⟩).2.items = [leafFileA, leafFileB] := by
  exact ⟨by decide, by decide⟩

/-- C9 amended: serializing a Tree mutates it exactly by sorting its items
in place with the canonical key: the resulting items are the stable sort of
the originals and hence a permutation of them — entry contents are
preserved, only the order is normalized. -/
theorem C9_immutability_amended :
    ∀ t : GitTree,
      (tree_serialize t).2.items = pySort leafLe t.items ∧
      ((tree_serialize t).2.items).Perm t.items := by
  intro t
  exact ⟨rfl, pySort_perm leafLe t.items⟩

/-- C10: the kvlm_parse base case (next space missing or after the next
newline) asserts that the newline sits exactly at the scan position, i.e.
that the space-free line is blank: when that newline is elsewhere the call
raises AssertionError instead of returning, and when it is at the scan
position the call returns the dictionary with the remainder stored as the
message. -/
theorem C10_kvlm_base_case (raw : Bytes) (start : Nat) (dct : Kvlm) (fuel : Nat)
    (hbase : bfind raw 32 start < 0 ∨ bfind raw 10 start < bfind raw 32 start) :
    (bfind raw 10 start ≠ (start : Int) →
      kvlm_parse_go raw (fuel + 1) start dct = .error "AssertionError") ∧
    (bfind raw 10 start = (start : Int) →
      kvlm_parse_go raw (fuel + 1) start dct =
        .ok (kvlmAssign dct none (.single (raw.drop (start + 1))))) := by
  constructor
  · intro hne
    simp only [kvlm_parse_go]
    rw [if_pos hbase, if_neg hne]
  · intro heq
    simp only [kvlm_parse_go]
    rw [if_pos hbase, if_pos heq]

/-- C10 witness: the input "abc\n\nmsg\n" has no space at all, so the base
case fires at position 0 with a non-blank line and kvlm_parse raises
AssertionError. -/
theorem C10_kvlm_base_case_witness :
    (bfind (str2bytes "abc\n\nmsg\n") 32 0 < 0 ∨
      bfind (str2bytes "abc\n\nmsg\n") 10 0 < bfind (str2bytes "abc\n\nmsg\n") 32 0) ∧
    kvlm_parse (str2bytes "abc\n\nmsg\n") = .error "AssertionError" := by
  constructor
  · decide
  · exact (C10_kvlm_base_case (str2bytes "abc\n\nmsg\n") 0 [] 9 (by decide)).1 (by decide)
